import Mathlib

/-
  Verification of the tran-web live collaboration server.

  Shallow embedding of the in-memory collaboration engine:
  src/server.js (rate limiter, disconnect handler),
  src/handlers/collaboration.js (edit debounce, conflict detection,
  cursor throttle, room lifecycle), src/handlers/presence.js
  (setUserOffline fan-out) and src/cache/friendsCache.js.

  Timestamps, user ids, socket ids, entry ids, positions and payload
  fields are modelled as Nat.  JS Maps are modelled as association
  lists preserving insertion order (Map.set updates in place,
  Map.delete removes).  setTimeout timers are explicit records fired
  by a scheduler that runs every due timer, earliest first, before the
  next inbound event is handled, which is the single-threaded Node
  event-loop semantics for an otherwise idle loop.
-/

/-- JS Math.abs of the difference of two Nat timestamps. -/
def absDiff (a b : Nat) : Nat := max a b - min a b

/-- JS Map.set: replace the value in place when the key is present, append otherwise. -/
def mapSet {α : Type} (k : Nat) (v : α) : List (Nat × α) → List (Nat × α)
  | [] => [(k, v)]
  | (k2, v2) :: rest => if k2 = k then (k, v) :: rest else (k2, v2) :: mapSet k v rest

/-- JS Map.delete: drop every pair with the given key. -/
def mapDel {α : Type} (k : Nat) (m : List (Nat × α)) : List (Nat × α) :=
  m.filter (fun p => p.1 != k)

/-- Value kept by checkRateLimit in userEventCounts (src/server.js line 36). -/
structure RateData where
  count : Nat
  lastReset : Nat
  deriving DecidableEq, Repr

/-- RATE_LIMIT = 10, max events per second (src/server.js line 35). -/
def RATE_LIMIT : Nat := 10

/-- windowMs = 1000, the one second rate window (src/server.js line 40). -/
def windowMs : Nat := 1000

/-- checkRateLimit (src/server.js lines 38-57): create the record on first
use, reset count and window start once the window has elapsed, increment,
and admit while the count stays at or below the limit.  Returns the
admission verdict together with the updated userEventCounts map. -/
def checkRateLimit (now uid : Nat) (m : List (Nat × RateData)) :
    Bool × List (Nat × RateData) :=
  let d0 := (List.lookup uid m).getD ⟨0, now⟩
  let d1 := if now - d0.lastReset > windowMs then (⟨0, now⟩ : RateData) else d0
  let d2 : RateData := ⟨d1.count + 1, d1.lastReset⟩
  (decide (d2.count ≤ RATE_LIMIT), mapSet uid d2 m)

/-- Cursor payload stored in cursorStore by handleCursorMove
(src/handlers/collaboration.js): position and the Date.now() at acceptance. -/
structure CursorData where
  position : Nat
  ts : Nat
  deriving DecidableEq, Repr

/-- A pending debounce timer set by the ENTRY_EDIT handler: the fire time
(arrival + 500 ms) and the payload fields captured by the setTimeout closure. -/
structure Timer where
  fireAt : Nat
  entryId : Nat
  content : Nat
  operation : Nat
  cursorPos : Nat
  uid : Nat
  deriving DecidableEq, Repr

/-- Membership status kept in the active_sessions table. -/
inductive SessionStatus where
  | viewing
  | editing
  | idle
  deriving DecidableEq, Repr

/-- One active_sessions row: (entry_id, user_id, status, joined_at, last_seen). -/
structure Session where
  entryId : Nat
  uid : Nat
  status : SessionStatus
  joinedAt : Nat
  lastSeen : Nat
  deriving DecidableEq, Repr

/-- A friendsCache value as a JS object: src/cache/friendsCache.js documents
the shape as online/offline lists, while sendFriendsList stores
onlineFriends/offlineFriends lists; a field a code path reads that was never
assigned is undefined, modelled as none. -/
structure JsCacheEntry where
  online : Option (List Nat)
  offline : Option (List Nat)
  onlineFriends : Option (List Nat)
  offlineFriends : Option (List Nat)
  deriving DecidableEq, Repr

/-- The cache entry stored by sendFriendsList (src/handlers/friends.js):
result = onlineFriends and offlineFriends keys only. -/
def sendFriendsListCacheEntry (onl offl : List Nat) : JsCacheEntry :=
  ⟨none, none, some onl, some offl⟩

/-- friendsCache.updateStatus (src/cache/friendsCache.js lines 17-28), with
JS exception behaviour made explicit: returns the cache after the statements
that ran, together with true when a TypeError was raised (reading .filter or
.includes of an undefined field).  Mutations preceding the throw persist. -/
def updateStatusR (cache : List (Nat × JsCacheEntry)) (userId friendId : Nat)
    (isOnline : Bool) : List (Nat × JsCacheEntry) × Bool :=
  match List.lookup userId cache with
  | none => (cache, false)
  | some e =>
    if isOnline then
      match e.offline with
      | none => (cache, true)
      | some offl =>
        let e1 := { e with offline := some (offl.filter (fun id => id != friendId)) }
        match e1.online with
        | none => (mapSet userId e1 cache, true)
        | some onl =>
          let e2 := if friendId ∈ onl then e1 else { e1 with online := some (onl ++ [friendId]) }
          (mapSet userId e2 cache, false)
    else
      match e.online with
      | none => (cache, true)
      | some onl =>
        let e1 := { e with online := some (onl.filter (fun id => id != friendId)) }
        match e1.offline with
        | none => (mapSet userId e1 cache, true)
        | some offl =>
          let e2 := if friendId ∈ offl then e1 else { e1 with offline := some (offl ++ [friendId]) }
          (mapSet userId e2 cache, false)

/-- Outbound transport emissions.  exceptSid marks a socket.to(room).emit
broadcast, delivered to every room member other than that socket. -/
inductive Emission where
  | entryEditRelay (entryId exceptSid content operation cursorPos uid ts : Nat)
  | conflict (sid entryId ts : Nat)
  | cursorMoved (entryId exceptSid uid position ts : Nat)
  | cursorCleared (entryId exceptSid uid : Nat)
  | rateLimitError (sid : Nat)
  | currentViewersMsg (sid entryId : Nat) (viewers : List (Nat × SessionStatus))
  | userViewingMsg (entryId exceptSid uid ts : Nat)
  | collabLeaveMsg (entryId exceptSid uid ts : Nat)
  | userEditingMsg (entryId uid ts : Nat)
  | userIdleMsg (entryId uid ts : Nat)
  | friendOfflineMsg (targetUser uid ts : Nat)
  deriving DecidableEq, Repr

/-- Recognizer for relayed ENTRY_EDIT broadcasts. -/
def Emission.isEditRelay : Emission → Bool
  | .entryEditRelay _ _ _ _ _ _ _ => true
  | _ => false

/-- Recognizer for CONFLICT_DETECTED notices. -/
def Emission.isConflict : Emission → Bool
  | .conflict _ _ _ => true
  | _ => false

/-- Recognizer for ENTRY_COLLAB_LEAVE broadcasts. -/
def Emission.isCollabLeave : Emission → Bool
  | .collabLeaveMsg _ _ _ _ => true
  | _ => false

/-- Recognizer for ENTRY_CURSOR_CLEAR broadcasts. -/
def Emission.isCursorCleared : Emission → Bool
  | .cursorCleared _ _ _ => true
  | _ => false

/-- The process-wide mutable state of the server: the module-level maps of
src/handlers/collaboration.js (lastEditMap, debounceMap, cursorThrottleMap),
the maps of src/server.js (userEventCounts, cursorStore, connectedUsers),
the active_sessions and ws_connections and friends tables of the store, and
the friendsCache map. -/
structure ServerState where
  lastEditMap : List (Nat × Nat × Nat)
  debounceMap : List (Nat × Timer)
  cursorThrottleMap : List (Nat × Nat)
  rate : List (Nat × RateData)
  cursorStore : List (Nat × List (Nat × CursorData))
  sessions : List Session
  connectedUsers : List (Nat × Nat)
  wsOnline : List (Nat × Bool)
  friends : List (Nat × Nat)
  cache : List (Nat × JsCacheEntry)
  deriving DecidableEq, Repr

/-- Fresh server state: every map empty. -/
def initState : ServerState := ⟨[], [], [], [], [], [], [], [], [], []⟩

/-- Inbound transport events, each carrying the emitting socket id and the
authenticated userId bound to that socket; Option models a missing field. -/
inductive InEvent where
  | editEvt (sid uid : Nat) (entryId : Option Nat) (content operation cursorPos : Nat)
      (clientTs : Option Nat)
  | cursorEvt (sid uid : Nat) (entryId : Option Nat) (position : Option Nat)
  | joinEvt (sid uid entryId : Nat)
  | leaveEvt (sid uid entryId : Nat)
  | editingEvt (sid uid entryId : Nat)
  | idleEvt (sid uid entryId : Nat)
  | disconnectEvt (sid uid : Nat) (dbFail : Bool)
  deriving DecidableEq, Repr

/-- ENTRY_EDIT handler (src/handlers/collaboration.js lines 253-316):
validate entryId and timestamp, consult the rate limiter, emit a
CONFLICT_DETECTED notice when the last accepted edit for the entry was by a
different user within 300 ms of the incoming clientTimestamp, then clear any
pending debounce timer for this socket and schedule a new 500 ms timer
capturing this payload. -/
def entryEditStep (t sid uid : Nat) (entryId? : Option Nat)
    (content operation cursorPos : Nat) (clientTs? : Option Nat)
    (s : ServerState) : ServerState × List Emission :=
  match entryId?, clientTs? with
  | some e, some ts =>
    let rc := checkRateLimit t uid s.rate
    let s1 := { s with rate := rc.2 }
    if rc.1 then
      let conflictEmits :=
        match List.lookup e s1.lastEditMap with
        | some le => if le.1 ≠ uid ∧ absDiff ts le.2 < 300 then [Emission.conflict sid e t] else []
        | none => []
      ({ s1 with debounceMap := mapSet sid ⟨t + 500, e, content, operation, cursorPos, uid⟩ s1.debounceMap },
       conflictEmits)
    else
      (s1, [Emission.rateLimitError sid])
  | _, _ => (s, [])

/-- ENTRY_CURSOR_MOVE handler (src/handlers/collaboration.js lines 321-333)
followed by handleCursorMove (lines 62-81): validate, drop when fewer than
100 ms passed since this socket's last accepted update, otherwise record the
accept time, upsert the cursor and broadcast it to the other room members. -/
def cursorMoveStep (t sid uid : Nat) (entryId? position? : Option Nat)
    (s : ServerState) : ServerState × List Emission :=
  match entryId?, position? with
  | some e, some p =>
    let lastEmit := (List.lookup sid s.cursorThrottleMap).getD 0
    if t - lastEmit < 100 then (s, [])
    else
      let s1 := { s with cursorThrottleMap := mapSet sid t s.cursorThrottleMap }
      let entryCursors := (List.lookup e s1.cursorStore).getD []
      let entryCursors2 := mapSet uid ⟨p, t⟩ entryCursors
      ({ s1 with cursorStore := mapSet e entryCursors2 s1.cursorStore },
       [Emission.cursorMoved e sid uid p t])
  | _, _ => (s, [])

/-- Upsert of joinEntryRoom (src/handlers/collaboration.js lines 108-116):
INSERT status viewing, ON CONFLICT update status to viewing and refresh
last_seen, leaving joined_at untouched. -/
def upsertSession (e uid t : Nat) : List Session → List Session
  | [] => [⟨e, uid, .viewing, t, t⟩]
  | r :: rest =>
    if r.entryId = e ∧ r.uid = uid then
      { r with status := .viewing, lastSeen := t } :: rest
    else
      r :: upsertSession e uid t rest

/-- joinEntryRoom (src/handlers/collaboration.js lines 103-136): upsert the
session row, send the current viewer list to the joiner and notify the rest
of the room. -/
def joinStep (t sid uid e : Nat) (s : ServerState) : ServerState × List Emission :=
  let sessions2 := upsertSession e uid t s.sessions
  let viewers := (sessions2.filter (fun r => r.entryId == e)).map (fun r => (r.uid, r.status))
  ({ s with sessions := sessions2 },
   [Emission.currentViewersMsg sid e viewers, Emission.userViewingMsg e sid uid t])

/-- leaveEntryRoom (src/handlers/collaboration.js lines 138-160): delete the
session row, delete the user's cursor for the entry when the entry is in the
cursor store, and broadcast ENTRY_COLLAB_LEAVE to the remaining members. -/
def leaveStep (t sid uid e : Nat) (s : ServerState) : ServerState × List Emission :=
  let sessions2 := s.sessions.filter (fun r => !(r.entryId == e && r.uid == uid))
  let cs2 :=
    match List.lookup e s.cursorStore with
    | some curs => mapSet e (mapDel uid curs) s.cursorStore
    | none => s.cursorStore
  ({ s with sessions := sessions2, cursorStore := cs2 },
   [Emission.collabLeaveMsg e sid uid t])

/-- userEditingEntry (src/handlers/collaboration.js lines 165-178): UPDATE
the row to editing when present, then notify the whole room. -/
def editingStep (t _sid uid e : Nat) (s : ServerState) : ServerState × List Emission :=
  ({ s with sessions := s.sessions.map (fun r =>
      if r.entryId = e ∧ r.uid = uid then { r with status := .editing, lastSeen := t } else r) },
   [Emission.userEditingMsg e uid t])

/-- userIdleEntry (src/handlers/collaboration.js lines 180-193). -/
def idleStep (t _sid uid e : Nat) (s : ServerState) : ServerState × List Emission :=
  ({ s with sessions := s.sessions.map (fun r =>
      if r.entryId = e ∧ r.uid = uid then { r with status := .idle, lastSeen := t } else r) },
   [Emission.userIdleMsg e uid t])

/-- The fan-out loop of setUserOffline (src/handlers/presence.js lines 59-75):
for each user who lists the disconnecting user as a friend, update that
user's cache entry and emit FRIEND_OFFLINE; a TypeError thrown by
updateStatus aborts the loop and propagates (returns false). -/
def offlineFanout (t uid : Nat) : List Nat → List (Nat × JsCacheEntry) →
    List (Nat × JsCacheEntry) × List Emission × Bool
  | [], cache => (cache, [], true)
  | r :: rest, cache =>
    let u := updateStatusR cache r uid false
    if u.2 then
      (u.1, [], false)
    else
      let tail := offlineFanout t uid rest u.1
      (tail.1, Emission.friendOfflineMsg r uid t :: tail.2.1, tail.2.2)

/-- The cursor cleanup loop of the disconnect handler (src/server.js lines
278-286): for every entry whose cursor map contains the user, delete the
cursor (the entry itself is kept even when it becomes empty) and broadcast
ENTRY_CURSOR_CLEAR to the entry's room. -/
def clearUserCursors (sid uid : Nat) :
    List (Nat × List (Nat × CursorData)) →
    List (Nat × List (Nat × CursorData)) × List Emission
  | [] => ([], [])
  | (e, curs) :: rest =>
    let tail := clearUserCursors sid uid rest
    if (List.lookup uid curs).isSome then
      ((e, mapDel uid curs) :: tail.1, Emission.cursorCleared e sid uid :: tail.2)
    else
      ((e, curs) :: tail.1, tail.2)

/-- Disconnect handler (src/server.js lines 269-297): remove the user from
connectedUsers, then inside one try block run setUserOffline (the
ws_connections UPDATE, whose failure dbFail throws, and the friend fan-out,
which rethrows any cache TypeError), and only when neither threw clear the
user's cursors and delete all of the user's session rows; the catch only
logs, so a throw skips everything after it. -/
def disconnectStep (t sid uid : Nat) (dbFail : Bool) (s : ServerState) :
    ServerState × List Emission :=
  let s1 := { s with connectedUsers := mapDel uid s.connectedUsers }
  if dbFail then (s1, [])
  else
    let s2 := { s1 with wsOnline := s1.wsOnline.map (fun (p : Nat × Bool) => if p.1 = uid then (p.1, false) else p) }
    let notif := (s2.friends.filter (fun (p : Nat × Nat) => p.2 == uid)).map (fun p => p.1)
    let fan := offlineFanout t uid notif s2.cache
    let s3 := { s2 with cache := fan.1 }
    if fan.2.2 then
      let cl := clearUserCursors sid uid s3.cursorStore
      ({ s3 with cursorStore := cl.1,
                 sessions := s3.sessions.filter (fun r => r.uid != uid) },
       fan.2.1 ++ cl.2)
    else
      (s3, fan.2.1)

/-- Dispatch one inbound event to its handler. -/
def stepEvent (t : Nat) (ev : InEvent) (s : ServerState) : ServerState × List Emission :=
  match ev with
  | .editEvt sid uid e? c op cp ts? => entryEditStep t sid uid e? c op cp ts? s
  | .cursorEvt sid uid e? p? => cursorMoveStep t sid uid e? p? s
  | .joinEvt sid uid e => joinStep t sid uid e s
  | .leaveEvt sid uid e => leaveStep t sid uid e s
  | .editingEvt sid uid e => editingStep t sid uid e s
  | .idleEvt sid uid e => idleStep t sid uid e s
  | .disconnectEvt sid uid dbFail => disconnectStep t sid uid dbFail s

/-- Fire one debounce timer (the setTimeout callback, src/handlers/
collaboration.js lines 294-314): broadcast the captured payload to the other
room members stamped with the fire-time Date.now(), record the accepted edit
in lastEditMap, and remove the socket's debounceMap entry. -/
def fireTimer (sid : Nat) (tm : Timer) (s : ServerState) : ServerState × List Emission :=
  ({ s with lastEditMap := mapSet tm.entryId (tm.uid, tm.fireAt) s.lastEditMap,
            debounceMap := mapDel sid s.debounceMap },
   [Emission.entryEditRelay tm.entryId sid tm.content tm.operation tm.cursorPos tm.uid tm.fireAt])

/-- The earliest-scheduled timer; head of the list wins ties, matching the
creation order in which Node fires timers with equal deadlines. -/
def earliestTimer : List (Nat × Timer) → Option (Nat × Timer)
  | [] => none
  | (k, tm) :: rest =>
    match earliestTimer rest with
    | none => some (k, tm)
    | some (k2, tm2) => if tm2.fireAt < tm.fireAt then some (k2, tm2) else some (k, tm)

/-- The earliest timer due at or before time t. -/
def earliestDue (t : Nat) (dm : List (Nat × Timer)) : Option (Nat × Timer) :=
  earliestTimer (dm.filter (fun p => decide (p.2.fireAt ≤ t)))

/-- Fire every timer due at or before t, earliest first; fuel bounds the
recursion by the number of pending timers, each firing removing one. -/
def fireDue (t : Nat) : Nat → ServerState → ServerState × List Emission
  | 0, s => (s, [])
  | fuel + 1, s =>
    match earliestDue t s.debounceMap with
    | none => (s, [])
    | some (sid, tm) =>
      let r1 := fireTimer sid tm s
      let r2 := fireDue t fuel r1.1
      (r2.1, r1.2 ++ r2.2)

/-- Fire every remaining timer, earliest first (the quiet period at the end
of a trace, when the event loop drains all pending setTimeout callbacks). -/
def flushAll : Nat → ServerState → ServerState × List Emission
  | 0, s => (s, [])
  | fuel + 1, s =>
    match earliestTimer s.debounceMap with
    | none => (s, [])
    | some (sid, tm) =>
      let r1 := fireTimer sid tm s
      let r2 := flushAll fuel r1.1
      (r2.1, r1.2 ++ r2.2)

/-- Run a list of timestamped inbound events: before each event, fire every
timer already due, then handle the event. -/
def runEvents : List (Nat × InEvent) → ServerState → ServerState × List Emission
  | [], s => (s, [])
  | (t, ev) :: rest, s =>
    let r1 := fireDue t s.debounceMap.length s
    let r2 := stepEvent t ev r1.1
    let r3 := runEvents rest r2.1
    (r3.1, r1.2 ++ r2.2 ++ r3.2)

/-- Run a trace to quiescence: handle every event, then drain the timers. -/
def runTrace (evs : List (Nat × InEvent)) (s0 : ServerState) :
    ServerState × List Emission :=
  let r1 := runEvents evs s0
  let r2 := flushAll r1.1.debounceMap.length r1.1
  (r2.1, r1.2 ++ r2.2)

/-- A Cursor exists for (uid, e): the cursor store has an entry map for e
containing uid. -/
def hasCursor (s : ServerState) (uid e : Nat) : Bool :=
  match List.lookup e s.cursorStore with
  | some curs => (List.lookup uid curs).isSome
  | none => false

/-- A Membership exists for (uid, e): an active_sessions row for the pair. -/
def hasSession (s : ServerState) (uid e : Nat) : Bool :=
  s.sessions.any (fun r => r.entryId == e && r.uid == uid)

/-- The session row for (e, uid), if any. -/
def findSession (l : List Session) (e uid : Nat) : Option Session :=
  l.find? (fun r => r.entryId == e && r.uid == uid)

/-- The status of the membership of uid in entry e. -/
def statusOf (s : ServerState) (e uid : Nat) : Option SessionStatus :=
  (findSession s.sessions e uid).map (fun r => r.status)

/-- Run checkRateLimit over a list of call times for one user, collecting
the admission verdicts. -/
def admitSeq (uid : Nat) : List Nat → List (Nat × RateData) →
    List Bool × List (Nat × RateData)
  | [], m => ([], m)
  | t :: ts, m =>
    let r := checkRateLimit t uid m
    let rest := admitSeq uid ts r.2
    (r.1 :: rest.1, rest.2)

/-- Consecutive arrival times each within gap ms of the previous one. -/
def chainLt (gap : Nat) : Nat → List (Nat × Nat) → Prop
  | _, [] => True
  | prev, q :: rest => q.1 < prev + gap ∧ chainLt gap q.1 rest

/-- A burst of ENTRY_EDIT events from one socket for one entry: each list
element is (arrival time, content), the clientTimestamp equals the arrival
time. -/
def burstEvents (sid uid e op cp : Nat) (edits : List (Nat × Nat)) : List (Nat × InEvent) :=
  edits.map (fun q => (q.1, InEvent.editEvt sid uid (some e) q.2 op cp (some q.1)))

/-- Last element of a list with a default. -/
def lastD : List (Nat × Nat) → (Nat × Nat) → Nat × Nat
  | [], d => d
  | q :: rest, _ => lastD rest q

/-- The state in the middle of a debounced burst from a fresh start: one
pending timer for the socket holding the latest payload, one rate record for
the user, everything else empty. -/
def midBurst (sid uid e op cp tPrev cPrev cnt rst : Nat) : ServerState :=
  { initState with
      debounceMap := [(sid, ⟨tPrev + 500, e, cPrev, op, cp, uid⟩)],
      rate := [(uid, ⟨cnt, rst⟩)] }

/-! ### Helper lemmas about the association-list operations -/

theorem lookup_mapSet_self {α : Type} (k : Nat) (v : α) (m : List (Nat × α)) :
    List.lookup k (mapSet k v m) = some v := by
  induction m with
  | nil => simp [mapSet, List.lookup]
  | cons p rest ih =>
    obtain ⟨k2, v2⟩ := p
    by_cases h : k2 = k
    · simp [mapSet, h, List.lookup]
    · simp [mapSet, h, List.lookup, beq_false_of_ne (Ne.symm h), ih]

theorem lookup_mapDel_self {α : Type} (k : Nat) (m : List (Nat × α)) :
    List.lookup k (mapDel k m) = none := by
  induction m with
  | nil => simp [mapDel]
  | cons p rest ih =>
    obtain ⟨k2, v2⟩ := p
    by_cases h : k2 = k
    · simpa [mapDel, h] using ih
    · simpa [mapDel, bne, h, List.lookup, beq_false_of_ne (Ne.symm h)] using ih

theorem mapDel_eq_of_lookup_none {α : Type} (k : Nat) (m : List (Nat × α))
    (h : List.lookup k m = none) : mapDel k m = m := by
  induction m with
  | nil => simp [mapDel]
  | cons p rest ih =>
    obtain ⟨k2, v2⟩ := p
    simp only [List.lookup] at h
    by_cases hk : k = k2
    · simp [hk] at h
    · simp only [beq_false_of_ne hk] at h
      have hrest := ih h
      have hb : ((k2, v2).1 != k) = true := by
        simp [bne, beq_false_of_ne (Ne.symm hk)]
      simp only [mapDel] at hrest ⊢
      rw [List.filter_cons, if_pos hb, hrest]

/-! ### Closed counterexample and bug theorems -/

/-- C1 (counterexample): two cursor_move events for the same entry from one
connection, 50 ms apart (times 100 and 150).  The broadcast that reaches the
other room members carries position 7, the FIRST sample, and the last
sample's position 9 is never broadcast, refuting the claim that only the
last event's position in the 100 ms window is broadcast. -/
theorem claim_C1_counterexample :
    (runTrace [(100, InEvent.cursorEvt 1 2 (some 3) (some 7)),
               (150, InEvent.cursorEvt 1 2 (some 3) (some 9))] initState).2
      = [Emission.cursorMoved 3 1 2 7 100]
    ∧ Emission.cursorMoved 3 1 2 9 150 ∉
        (runTrace [(100, InEvent.cursorEvt 1 2 (some 3) (some 7)),
                   (150, InEvent.cursorEvt 1 2 (some 3) (some 9))] initState).2 := by
  decide

/-- C2 (counterexample): users 2 and 3 submit edits for entry 7 with
clientTimestamps 0 and 50, i.e. 50 ms apart, from a fresh state.  No
CONFLICT_DETECTED notice is emitted to anyone (the whole run emits exactly
the two debounced relays), refuting the claim that both editors
receive/trigger a conflict notice: lastEditMap only records an edit when its
500 ms debounce timer fires, so neither submission sees a prior accepted
edit. -/
theorem claim_C2_counterexample :
    ((runTrace [(0, InEvent.editEvt 1 2 (some 7) 11 0 0 (some 0)),
                (50, InEvent.editEvt 2 3 (some 7) 12 0 0 (some 50))] initState).2.filter
        Emission.isConflict) = []
    ∧ (runTrace [(0, InEvent.editEvt 1 2 (some 7) 11 0 0 (some 0)),
                 (50, InEvent.editEvt 2 3 (some 7) 12 0 0 (some 50))] initState).2
      = [Emission.entryEditRelay 7 1 11 0 0 2 500,
         Emission.entryEditRelay 7 2 12 0 0 3 550] := by
  decide

/-- C3 (counterexample): user 2 occupies room 1 with a cursor there; on
disconnect the server emits only ENTRY_CURSOR_CLEAR and no
ENTRY_COLLAB_LEAVE, while an explicit leave of the same room does emit
ENTRY_COLLAB_LEAVE, so the disconnect cascade is not equivalent to calling
leave once per occupied room and remaining members get no viewer-left
event. -/
theorem claim_C3_counterexample :
    hasSession { initState with
        sessions := [⟨1, 2, .viewing, 0, 0⟩],
        cursorStore := [(1, [(2, ⟨5, 0⟩)])] } 2 1 = true
    ∧ (disconnectStep 100 9 2 false { initState with
        sessions := [⟨1, 2, .viewing, 0, 0⟩],
        cursorStore := [(1, [(2, ⟨5, 0⟩)])] }).2
      = [Emission.cursorCleared 1 9 2]
    ∧ ((leaveStep 100 9 2 1 { initState with
        sessions := [⟨1, 2, .viewing, 0, 0⟩],
        cursorStore := [(1, [(2, ⟨5, 0⟩)])] }).2.filter Emission.isCollabLeave)
      = [Emission.collabLeaveMsg 1 9 2 100] := by
  decide

/-- C4 (counterexample): user 2 occupies room 1 with a cursor there; when the
store call marking the user offline fails (dbFail), the disconnect handler's
single try block aborts, so the cursor is NOT removed, no cursor-cleared
broadcast is sent, and the session row is NOT deleted, refuting the claim
that a persistence failure never blocks the rest of the disconnect
cleanup. -/
theorem claim_C4_counterexample :
    hasCursor (disconnectStep 100 9 2 true { initState with
        sessions := [⟨1, 2, .viewing, 0, 0⟩],
        cursorStore := [(1, [(2, ⟨5, 0⟩)])] }).1 2 1 = true
    ∧ (disconnectStep 100 9 2 true { initState with
        sessions := [⟨1, 2, .viewing, 0, 0⟩],
        cursorStore := [(1, [(2, ⟨5, 0⟩)])] }).1.sessions
      = [⟨1, 2, .viewing, 0, 0⟩]
    ∧ (disconnectStep 100 9 2 true { initState with
        sessions := [⟨1, 2, .viewing, 0, 0⟩],
        cursorStore := [(1, [(2, ⟨5, 0⟩)])] }).2 = [] := by
  decide

/-- C4 (amended): a failure of the ws_connections UPDATE in setUserOffline
propagates out of the await and is caught by the disconnect handler's single
catch, which only logs: the handler never crashes, but every cleanup step
after the failing call is skipped — the resulting state differs from the
pre-disconnect state only in the connectedUsers registry entry, with
cursors, sessions and the cursor-clear broadcasts all untouched. -/
theorem claim_C4_amended (t sid uid : Nat) (s : ServerState) :
    disconnectStep t sid uid true s
      = ({ s with connectedUsers := mapDel uid s.connectedUsers }, []) := by
  rfl

/-- C5 (code bug): the cache entry written by sendFriendsList has keys
onlineFriends/offlineFriends, but friendsCache.updateStatus reads
cache.offline and cache.online (the shape its own header comment documents),
so on any online/offline transition of a cached friend the update throws a
TypeError and leaves the entry unmoved (first two conjuncts); had the entry
carried the documented online/offline keys, the same call would have
performed exactly the claimed incremental move (third conjunct). -/
theorem claim_C5_bug :
    (updateStatusR [(1, sendFriendsListCacheEntry [2] [])] 1 2 true).2 = true
    ∧ (updateStatusR [(1, sendFriendsListCacheEntry [2] [])] 1 2 true).1
        = [(1, sendFriendsListCacheEntry [2] [])]
    ∧ updateStatusR [(1, ⟨some [2], some [], none, none⟩)] 1 2 false
        = ([(1, ⟨some [], some [2], none, none⟩)], false) := by
  decide

/-- C6 (counterexample): user 2 joins entry 5, transitions to editing, then
re-joins.  The re-join resets the membership status from editing back to
viewing, refuting the claim that re-joining leaves all membership state but
lastSeenAt unchanged: the join upsert sets status to viewing
unconditionally. -/
theorem claim_C6_counterexample :
    statusOf (runTrace [(10, InEvent.joinEvt 1 2 5),
                        (20, InEvent.editingEvt 1 2 5)] initState).1 5 2
      = some SessionStatus.editing
    ∧ statusOf (runTrace [(10, InEvent.joinEvt 1 2 5),
                          (20, InEvent.editingEvt 1 2 5),
                          (30, InEvent.joinEvt 1 2 5)] initState).1 5 2
      = some SessionStatus.viewing := by
  decide

/-- C7 (counterexample): from a fresh state, a single cursor_move event from
user 2 for entry 3 creates a cursor for (2, 3) although no membership exists
for that pair: the ENTRY_CURSOR_MOVE handler never checks membership, so the
claimed invariant is violated in a reachable state. -/
theorem claim_C7_counterexample :
    hasCursor (runTrace [(100, InEvent.cursorEvt 1 2 (some 3) (some 7))] initState).1 2 3 = true
    ∧ hasSession (runTrace [(100, InEvent.cursorEvt 1 2 (some 3) (some 7))] initState).1 2 3 = false := by
  decide

/-- C8 (counterexample): a burst of 11 edit events from one connection for
entry 3, consecutive arrivals 90 ms apart (all within 500 ms of each other),
contents 0..10.  The 11th event exceeds the rate limit of 10 per second and
is rejected, so the pending timer from the 10th edit survives and the single
relayed edit carries content 9, not the payload of the last submitted edit
(content 10), refuting the claim for bursts that overrun the rate limit. -/
theorem claim_C8_counterexample :
    (runTrace ((List.range 11).map
        (fun i => (90 * i, InEvent.editEvt 1 2 (some 3) i 0 0 (some (90 * i))))) initState).2
      = [Emission.rateLimitError 1, Emission.entryEditRelay 3 1 9 0 0 2 1310] := by
  decide

/-! ### Amended claim theorems -/

/-- C7 (amended): the cursor invariant does not hold — a cursor_move event
accepted by the throttle upserts the sender's cursor for the entry with no
Membership check whatsoever (first conjunct, for an arbitrary state, with no
assumption about sessions); what the code does maintain is that leaving an
entry removes the leaving user's cursor for it (second conjunct). -/
theorem claim_C7_amended (s s2 : ServerState) (t t2 sid sid2 uid e e2 p : Nat)
    (hthr : ¬ (t - (List.lookup sid s.cursorThrottleMap).getD 0 < 100)) :
    hasCursor (cursorMoveStep t sid uid (some e) (some p) s).1 uid e = true
    ∧ hasCursor (leaveStep t2 sid2 uid e2 s2).1 uid e2 = false := by
  constructor
  · simp only [cursorMoveStep]
    rw [if_neg hthr]
    simp [hasCursor, lookup_mapSet_self]
  · simp only [leaveStep, hasCursor]
    cases hcs : List.lookup e2 s2.cursorStore with
    | none => simp [hcs]
    | some curs => simp [hcs, lookup_mapSet_self, lookup_mapDel_self]

/-- Witness for claim_C7_amended at a concrete input. -/
theorem claim_C7_witness :
    hasCursor (cursorMoveStep 100 1 2 (some 3) (some 7) initState).1 2 3 = true
    ∧ hasCursor (leaveStep 200 4 2 3 initState).1 2 3 = false :=
  claim_C7_amended initState initState 100 200 1 4 2 3 3 7 (by decide)

/-- C2 (amended): a CONFLICT_DETECTED notice is emitted to the submitting
connection exactly when the last ACCEPTED edit for the entry (the lastEditMap
record, written only when a debounce timer fires, holding the accepting
server timestamp) was made by a different user and lies within 300 ms of the
incoming edit's clientTimestamp; independently of the conflict outcome the
new edit is still accepted: a fresh 500 ms debounce timer holding its payload
is scheduled, so it will still be broadcast.  Hence two edits 50 ms apart
conflict only against a previously accepted edit, not against each other,
and an edit whose clientTimestamp is at least 300 ms from the recorded
accepted timestamp raises no notice. -/
theorem claim_C2_amended (t sid uid e ts c op cp : Nat) (s : ServerState)
    (hrate : (checkRateLimit t uid s.rate).1 = true) :
    (Emission.conflict sid e t ∈ (entryEditStep t sid uid (some e) c op cp (some ts) s).2 ↔
      ∃ u2 t2, List.lookup e s.lastEditMap = some (u2, t2) ∧ u2 ≠ uid ∧ absDiff ts t2 < 300)
    ∧ List.lookup sid (entryEditStep t sid uid (some e) c op cp (some ts) s).1.debounceMap
        = some ⟨t + 500, e, c, op, cp, uid⟩ := by
  simp only [entryEditStep, hrate, if_true]
  constructor
  · cases hle : List.lookup e s.lastEditMap with
    | none => simp [hle]
    | some le =>
      obtain ⟨u2, t2⟩ := le
      by_cases hc : u2 ≠ uid ∧ absDiff ts t2 < 300
      · simp only [hle, if_pos hc, List.mem_singleton, true_iff]
        exact ⟨u2, t2, rfl, hc⟩
      · simp only [hle, if_neg hc, List.not_mem_nil, false_iff]
        rintro ⟨u3, t3, hsome, hne, hlt⟩
        rw [Option.some_inj] at hsome
        cases hsome
        exact hc ⟨hne, hlt⟩
  · exact lookup_mapSet_self sid _ _

/-- Witness for claim_C2_amended: entry 7 carries an accepted edit by user 9
at server time 100; user 2 edits at time 200 with clientTimestamp 250, within
the 300 ms conflict window, so the conflict notice is emitted and the new
edit is still scheduled. -/
theorem claim_C2_witness :
    (Emission.conflict 1 7 200 ∈
        (entryEditStep 200 1 2 (some 7) 5 0 0 (some 250)
          { initState with lastEditMap := [(7, (9, 100))] }).2 ↔
      ∃ u2 t2, List.lookup 7 ({ initState with
          lastEditMap := [(7, (9, 100))] } : ServerState).lastEditMap = some (u2, t2)
        ∧ u2 ≠ 2 ∧ absDiff 250 t2 < 300)
    ∧ List.lookup 1 (entryEditStep 200 1 2 (some 7) 5 0 0 (some 250)
          { initState with lastEditMap := [(7, (9, 100))] }).1.debounceMap
        = some ⟨700, 7, 5, 0, 0, 2⟩ :=
  claim_C2_amended 200 1 2 7 250 5 0 0 _ (by decide)

/-- Re-running the join upsert at the same instant changes nothing: the
second ON CONFLICT update writes the values the row already has. -/
theorem upsertSession_idem (e uid t : Nat) (l : List Session) :
    upsertSession e uid t (upsertSession e uid t l) = upsertSession e uid t l := by
  induction l with
  | nil => simp [upsertSession]
  | cons a rest ih =>
    by_cases hp : a.entryId = e ∧ a.uid = uid
    · simp [upsertSession, hp]
    · simp [upsertSession, hp, ih]

/-- The join upsert on an existing row resets its status to viewing and
refreshes last_seen, keeping joined_at. -/
theorem findSession_upsert_some (e uid t : Nat) (l : List Session) (r : Session)
    (h : findSession l e uid = some r) :
    findSession (upsertSession e uid t l) e uid
      = some { r with status := .viewing, lastSeen := t } := by
  induction l with
  | nil => simp [findSession] at h
  | cons a rest ih =>
    by_cases hp : a.entryId = e ∧ a.uid = uid
    · have hb : (a.entryId == e && a.uid == uid) = true := by simp [hp.1, hp.2]
      have ha : a = r := by
        simpa [findSession, List.find?, hb] using h
      subst ha
      have hb2 : (({ a with status := SessionStatus.viewing, lastSeen := t } : Session).entryId == e
          && ({ a with status := SessionStatus.viewing, lastSeen := t } : Session).uid == uid) = true := by
        simp [hp.1, hp.2]
      simp [upsertSession, hp, findSession, List.find?, hb2]
    · have hb : (a.entryId == e && a.uid == uid) = false := by
        rcases not_and_or.mp hp with hx | hx <;> simp [beq_false_of_ne hx]
      have h2 : findSession rest e uid = some r := by
        simpa [findSession, List.find?, hb] using h
      simp only [upsertSession, if_neg hp]
      simpa [findSession, List.find?, hb] using ih h2

/-- C6 (amended): re-joining an already-joined room refreshes lastSeenAt AND
resets the membership status to Viewing, keeping joinedAt (first conjunct) —
so membership state other than lastSeenAt is not always unchanged, but
join immediately followed by join is still state-equivalent to the single
join (second conjunct, full server-state equality). -/
theorem claim_C6_amended (t sid uid e : Nat) (s : ServerState) (r : Session)
    (hmem : findSession s.sessions e uid = some r) :
    findSession (joinStep t sid uid e s).1.sessions e uid
      = some { r with status := .viewing, lastSeen := t }
    ∧ (joinStep t sid uid e ((joinStep t sid uid e s).1)).1 = (joinStep t sid uid e s).1 := by
  constructor
  · simpa [joinStep] using findSession_upsert_some e uid t s.sessions r hmem
  · simp [joinStep, upsertSession_idem]

/-- Witness for claim_C6_amended: user 2 is a member of entry 5 with status
editing; re-joining at time 40 yields status viewing with joinedAt kept. -/
theorem claim_C6_witness :
    findSession (joinStep 40 1 2 5 { initState with
        sessions := [⟨5, 2, .editing, 10, 20⟩] }).1.sessions 5 2
      = some ⟨5, 2, .viewing, 10, 40⟩
    ∧ (joinStep 40 1 2 5 ((joinStep 40 1 2 5 { initState with
        sessions := [⟨5, 2, .editing, 10, 20⟩] }).1)).1
      = (joinStep 40 1 2 5 { initState with
        sessions := [⟨5, 2, .editing, 10, 20⟩] }).1 :=
  claim_C6_amended 40 1 2 5 _ ⟨5, 2, .editing, 10, 20⟩ (by decide)

/-- Within one window (every call time at most windowMs after the recorded
window start) checkRateLimit never resets, so the counter climbs by one per
call and the verdicts only depend on the running count. -/
theorem admitSeq_inWindow (uid t0 : Nat) (ts : List Nat) :
    ∀ c : Nat, (∀ t ∈ ts, t ≤ t0 + windowMs) →
      admitSeq uid ts [(uid, ⟨c, t0⟩)]
        = ((List.range ts.length).map (fun i => decide (c + i + 1 ≤ RATE_LIMIT)),
           [(uid, ⟨c + ts.length, t0⟩)]) := by
  induction ts with
  | nil => intro c _; simp [admitSeq]
  | cons t rest ih =>
    intro c hin
    have hreset : ¬ (t - t0 > windowMs) := by
      have := hin t (List.mem_cons_self t rest)
      omega
    have hstep : checkRateLimit t uid [(uid, ⟨c, t0⟩)]
        = (decide (c + 1 ≤ RATE_LIMIT), [(uid, ⟨c + 1, t0⟩)]) := by
      simp [checkRateLimit, List.lookup, mapSet, if_neg hreset]
    have htail := ih (c + 1) (fun x hx => hin x (List.mem_cons_of_mem t hx))
    simp only [admitSeq, hstep, htail, List.length_cons]
    rw [Prod.mk.injEq]
    constructor
    · rw [List.range_succ_eq_map, List.map_cons, List.map_map, List.cons_eq_cons]
      constructor
      · simp
      · exact List.map_congr_left (fun i _ => by
          simp only [Function.comp_apply]
          rw [decide_eq_decide]
          omega)
    · have harith : c + 1 + rest.length = c + (rest.length + 1) := by omega
      rw [harith]

/-- C9: starting from a fresh counter, of 11 admit checks for one user whose
later calls all fall inside the window opened by the first call, the first
10 return true and the 11th returns false (no error is raised: the check is
a total boolean function); once a call arrives strictly after the window
has elapsed, count and window start are reset and the event is admitted. -/
theorem claim_C9 (uid t0 tNext : Nat) (rest : List Nat) (hlen : rest.length = 10)
    (hin : ∀ t ∈ rest, t ≤ t0 + windowMs) (hNext : t0 + windowMs < tNext) :
    (admitSeq uid (t0 :: rest) []).1 = List.replicate 10 true ++ [false]
    ∧ checkRateLimit tNext uid (admitSeq uid (t0 :: rest) []).2
        = (true, [(uid, ⟨1, tNext⟩)]) := by
  have hfirst : checkRateLimit t0 uid [] = (true, [(uid, ⟨1, t0⟩)]) := by
    simp [checkRateLimit, List.lookup, mapSet, RATE_LIMIT, windowMs]
  have hrest := admitSeq_inWindow uid t0 rest 1 hin
  constructor
  · have h1 : (admitSeq uid (t0 :: rest) []).1
        = true :: (List.range rest.length).map (fun i => decide (1 + i + 1 ≤ RATE_LIMIT)) := by
      simp [admitSeq, hfirst, hrest]
    rw [h1, hlen]
    decide
  · have h2 : (admitSeq uid (t0 :: rest) []).2 = [(uid, ⟨1 + rest.length, t0⟩)] := by
      simp [admitSeq, hfirst, hrest]
    rw [h2]
    have hreset : tNext - t0 > windowMs := by omega
    simp [checkRateLimit, List.lookup, mapSet, if_pos hreset, RATE_LIMIT]

/-- Witness for claim_C9: user 7, first call at 0, ten more calls at time 50
(inside the window), then a call at 2000 after the window elapsed. -/
theorem claim_C9_witness :
    (admitSeq 7 (0 :: List.replicate 10 50) []).1 = List.replicate 10 true ++ [false]
    ∧ checkRateLimit 2000 7 (admitSeq 7 (0 :: List.replicate 10 50) []).2
        = (true, [(7, ⟨1, 2000⟩)]) :=
  claim_C9 7 0 2000 (List.replicate 10 50) (by decide)
    (by intro t ht; rw [List.eq_of_mem_replicate ht]; decide) (by decide)

/-- The disconnect cursor loop deletes the user from every entry's cursor
map (keeping the entries themselves). -/
theorem clearUserCursors_fst (sid uid : Nat) (l : List (Nat × List (Nat × CursorData))) :
    (clearUserCursors sid uid l).1 = l.map (fun p => (p.1, mapDel uid p.2)) := by
  induction l with
  | nil => simp [clearUserCursors]
  | cons p rest ih =>
    obtain ⟨e, curs⟩ := p
    cases hcase : (List.lookup uid curs).isSome with
    | true => simp [clearUserCursors, hcase, ih]
    | false =>
      have hnone : List.lookup uid curs = none := by
        cases h : List.lookup uid curs with
        | none => rfl
        | some v => rw [h] at hcase; simp at hcase
      simp [clearUserCursors, hcase, ih, mapDel_eq_of_lookup_none uid curs hnone]

/-- The disconnect cursor loop broadcasts ENTRY_CURSOR_CLEAR for exactly the
entries whose cursor map contains the user, in store order. -/
theorem clearUserCursors_snd (sid uid : Nat) (l : List (Nat × List (Nat × CursorData))) :
    (clearUserCursors sid uid l).2
      = (l.filter (fun p => (List.lookup uid p.2).isSome)).map
          (fun p => Emission.cursorCleared p.1 sid uid) := by
  induction l with
  | nil => simp [clearUserCursors]
  | cons p rest ih =>
    obtain ⟨e, curs⟩ := p
    cases hcase : (List.lookup uid curs).isSome with
    | true => simp [clearUserCursors, List.filter_cons, hcase, ih]
    | false => simp [clearUserCursors, List.filter_cons, hcase, ih]

/-- Looking an entry up after the per-entry cursor deletion. -/
theorem lookup_map_mapDel (uid e : Nat) (l : List (Nat × List (Nat × CursorData))) :
    List.lookup e (l.map (fun p => (p.1, mapDel uid p.2)))
      = (List.lookup e l).map (mapDel uid) := by
  induction l with
  | nil => simp
  | cons p rest ih =>
    obtain ⟨k, v⟩ := p
    cases hb : e == k with
    | true => simp [List.lookup, hb]
    | false => simpa [List.lookup, hb] using ih

/-- C3 (amended): when the offline write and the cache fan-out succeed (here:
no friends row points at the user, so the fan-out loop is empty), the
disconnect cascade deletes every session row of the user and every cursor of
the user, broadcasting ENTRY_CURSOR_CLEAR once per entry that held a cursor
of the user — but it emits NO ENTRY_COLLAB_LEAVE broadcast at all, so it is
not equivalent to calling leave once per occupied room: those rooms' members
receive no viewer-left event. -/
theorem claim_C3_amended (t sid uid : Nat) (s : ServerState)
    (hfr : s.friends.filter (fun (p : Nat × Nat) => p.2 == uid) = []) :
    (disconnectStep t sid uid false s).1.sessions
        = s.sessions.filter (fun r => r.uid != uid)
    ∧ (∀ e, hasCursor (disconnectStep t sid uid false s).1 uid e = false)
    ∧ (disconnectStep t sid uid false s).2
        = (s.cursorStore.filter (fun p => (List.lookup uid p.2).isSome)).map
            (fun p => Emission.cursorCleared p.1 sid uid)
    ∧ (disconnectStep t sid uid false s).2.filter Emission.isCollabLeave = [] := by
  have hd : disconnectStep t sid uid false s
      = ({ s with
            connectedUsers := mapDel uid s.connectedUsers,
            wsOnline := s.wsOnline.map (fun (p : Nat × Bool) => if p.1 = uid then (p.1, false) else p),
            cursorStore := (clearUserCursors sid uid s.cursorStore).1,
            sessions := s.sessions.filter (fun r => r.uid != uid) },
         (clearUserCursors sid uid s.cursorStore).2) := by
    simp [disconnectStep, hfr, offlineFanout]
  refine ⟨?_, ?_, ?_, ?_⟩
  · rw [hd]
  · intro e
    rw [hd]
    simp only [hasCursor, clearUserCursors_fst, lookup_map_mapDel]
    cases List.lookup e s.cursorStore with
    | none => simp
    | some curs => simp [lookup_mapDel_self]
  · rw [hd]
    exact clearUserCursors_snd sid uid s.cursorStore
  · rw [hd]
    have hcc : ∀ e2 : Nat, (Emission.cursorCleared e2 sid uid).isCollabLeave = false :=
      fun e2 => rfl
    simp only [clearUserCursors_snd, List.filter_eq_nil_iff, List.mem_map, List.mem_filter]
    rintro a ⟨⟨x, x1⟩, ⟨hmem, hsome⟩, hEq⟩
    rw [← hEq]
    simp [hcc x]

/-- Witness for claim_C3_amended: user 2 occupies rooms 1 and 4, with a
cursor in room 1 only; disconnect removes both session rows, clears the
cursor with one ENTRY_CURSOR_CLEAR for room 1, and emits no
ENTRY_COLLAB_LEAVE. -/
theorem claim_C3_witness :
    (disconnectStep 100 9 2 false { initState with
        sessions := [⟨1, 2, .viewing, 0, 0⟩, ⟨4, 2, .editing, 0, 0⟩, ⟨1, 3, .viewing, 0, 0⟩],
        cursorStore := [(1, [(2, ⟨5, 0⟩), (3, ⟨6, 0⟩)])] }).1.sessions
      = [⟨1, 3, .viewing, 0, 0⟩]
    ∧ (∀ e, hasCursor (disconnectStep 100 9 2 false { initState with
        sessions := [⟨1, 2, .viewing, 0, 0⟩, ⟨4, 2, .editing, 0, 0⟩, ⟨1, 3, .viewing, 0, 0⟩],
        cursorStore := [(1, [(2, ⟨5, 0⟩), (3, ⟨6, 0⟩)])] }).1 2 e = false)
    ∧ (disconnectStep 100 9 2 false { initState with
        sessions := [⟨1, 2, .viewing, 0, 0⟩, ⟨4, 2, .editing, 0, 0⟩, ⟨1, 3, .viewing, 0, 0⟩],
        cursorStore := [(1, [(2, ⟨5, 0⟩), (3, ⟨6, 0⟩)])] }).2
      = [Emission.cursorCleared 1 9 2]
    ∧ (disconnectStep 100 9 2 false { initState with
        sessions := [⟨1, 2, .viewing, 0, 0⟩, ⟨4, 2, .editing, 0, 0⟩, ⟨1, 3, .viewing, 0, 0⟩],
        cursorStore := [(1, [(2, ⟨5, 0⟩), (3, ⟨6, 0⟩)])] }).2.filter Emission.isCollabLeave
      = [] := by
  have h := claim_C3_amended 100 9 2 { initState with
        sessions := [⟨1, 2, .viewing, 0, 0⟩, ⟨4, 2, .editing, 0, 0⟩, ⟨1, 3, .viewing, 0, 0⟩],
        cursorStore := [(1, [(2, ⟨5, 0⟩), (3, ⟨6, 0⟩)])] } (by decide)
  refine ⟨?_, h.2.1, ?_, h.2.2.2⟩
  · rw [h.1]; decide
  · rw [h.2.2.1]; decide

/-- Once a cursor update from a socket has been accepted at time tLast,
every further cursor event from that socket arriving before tLast + 100 is
dropped by the throttle without touching the state or emitting anything. -/
theorem cursor_drops (sid uid e tLast : Nat) (s : ServerState)
    (hdm : s.debounceMap = []) (hth : List.lookup sid s.cursorThrottleMap = some tLast) :
    ∀ evs : List (Nat × Nat), (∀ q ∈ evs, q.1 < tLast + 100) →
      runEvents (evs.map (fun q => (q.1, InEvent.cursorEvt sid uid (some e) (some q.2)))) s
        = (s, []) := by
  intro evs
  induction evs with
  | nil => intro _; rfl
  | cons q rest ih =>
    intro hin
    obtain ⟨t, p⟩ := q
    have ht : t < tLast + 100 := hin (t, p) (List.mem_cons_self _ _)
    have hfire : fireDue t s.debounceMap.length s = (s, []) := by
      rw [hdm]; rfl
    have hc : t - (List.lookup sid s.cursorThrottleMap).getD 0 < 100 := by
      rw [hth]
      simp only [Option.getD_some]
      omega
    have hdrop : stepEvent t (InEvent.cursorEvt sid uid (some e) (some p)) s = (s, []) := by
      simp [stepEvent, cursorMoveStep, if_pos hc]
    simp only [List.map_cons, runEvents, hfire, hdrop]
    simp [ih (fun x hx => hin x (List.mem_cons_of_mem _ hx))]

/-- Firing due timers is the identity when no timer is pending. -/
theorem fireDue_nil (t fuel : Nat) (s : ServerState) (hdm : s.debounceMap = []) :
    fireDue t fuel s = (s, []) := by
  cases fuel with
  | zero => rfl
  | succ n => simp [fireDue, earliestDue, earliestTimer, hdm]

/-- Draining timers is the identity when no timer is pending. -/
theorem flushAll_nil (fuel : Nat) (s : ServerState) (hdm : s.debounceMap = []) :
    flushAll fuel s = (s, []) := by
  cases fuel with
  | zero => rfl
  | succ n => simp [flushAll, earliestTimer, hdm]

/-- C1 (amended): of a sequence of cursor_move events from one connection
for one entry, the first one (accepted at t0, at least 100 ms after the
throttle's initial mark) is the ONLY one broadcast when all later samples
fall within 100 ms of t0; the later samples are dropped silently, and the
stored cursor keeps the first sample's position, not the last's. -/
theorem claim_C1_amended (sid uid e p0 t0 : Nat) (rest : List (Nat × Nat))
    (h0 : 100 ≤ t0) (hin : ∀ q ∈ rest, q.1 < t0 + 100) :
    (runTrace ((t0, InEvent.cursorEvt sid uid (some e) (some p0)) ::
        rest.map (fun q => (q.1, InEvent.cursorEvt sid uid (some e) (some q.2)))) initState).2
      = [Emission.cursorMoved e sid uid p0 t0]
    ∧ List.lookup e (runTrace ((t0, InEvent.cursorEvt sid uid (some e) (some p0)) ::
        rest.map (fun q => (q.1, InEvent.cursorEvt sid uid (some e) (some q.2)))) initState).1.cursorStore
      = some [(uid, ⟨p0, t0⟩)] := by
  have hc : ¬ (t0 - (List.lookup sid initState.cursorThrottleMap).getD 0 < 100) := by
    simp [initState, List.lookup]
    omega
  have hstep : stepEvent t0 (InEvent.cursorEvt sid uid (some e) (some p0)) initState
      = ({ initState with
            cursorThrottleMap := [(sid, t0)],
            cursorStore := [(e, [(uid, ⟨p0, t0⟩)])] },
         [Emission.cursorMoved e sid uid p0 t0]) := by
    simp [stepEvent, cursorMoveStep, if_neg hc, initState, mapSet, List.lookup]
    omega
  have hdrops := cursor_drops sid uid e t0
      { initState with
          cursorThrottleMap := [(sid, t0)],
          cursorStore := [(e, [(uid, ⟨p0, t0⟩)])] }
      (by rfl) (by simp [List.lookup]) rest hin
  have h1 : initState.debounceMap = [] := rfl
  have h2 : ({ initState with
      cursorThrottleMap := [(sid, t0)],
      cursorStore := [(e, [(uid, ⟨p0, t0⟩)])] } : ServerState).debounceMap = [] := rfl
  have hrun : runTrace ((t0, InEvent.cursorEvt sid uid (some e) (some p0)) ::
      rest.map (fun q => (q.1, InEvent.cursorEvt sid uid (some e) (some q.2)))) initState
      = ({ initState with
            cursorThrottleMap := [(sid, t0)],
            cursorStore := [(e, [(uid, ⟨p0, t0⟩)])] },
         [Emission.cursorMoved e sid uid p0 t0]) := by
    simp only [runTrace, runEvents, fireDue_nil _ _ _ h1, hstep, hdrops, flushAll_nil _ _ h2]
    simp
  rw [hrun]
  constructor
  · rfl
  · simp [List.lookup]

/-- Witness for claim_C1_amended: events at times 100 (position 7), 150
(position 9) and 199 (position 4); only position 7 at time 100 is
broadcast and stored. -/
theorem claim_C1_witness :
    (runTrace ((100, InEvent.cursorEvt 1 2 (some 3) (some 7)) ::
        [(150, 9), (199, 4)].map (fun q => (q.1, InEvent.cursorEvt 1 2 (some 3) (some q.2)))) initState).2
      = [Emission.cursorMoved 3 1 2 7 100]
    ∧ List.lookup 3 (runTrace ((100, InEvent.cursorEvt 1 2 (some 3) (some 7)) ::
        [(150, 9), (199, 4)].map (fun q => (q.1, InEvent.cursorEvt 1 2 (some 3) (some q.2)))) initState).1.cursorStore
      = some [(2, ⟨7, 100⟩)] :=
  claim_C1_amended 1 2 3 7 100 [(150, 9), (199, 4)] (by decide) (by decide)

/-- C10: the edit debounce is keyed by the socket alone.  From a fresh
state, an edit for entry eA followed within the 500 ms quiet period by an
edit from the SAME connection for a DIFFERENT entry eB cancels eA's pending
timer: after the trace quiesces, the only relayed edit is eB's (so eA's
edit is never broadcast to eA's room) and the last-edit record for eA was
never written. -/
theorem claim_C10 (sid uid eA eB cA cB op cp t1 d : Nat) (hne : eA ≠ eB) (hd : d < 500) :
    (runTrace [(t1, InEvent.editEvt sid uid (some eA) cA op cp (some t1)),
               (t1 + d, InEvent.editEvt sid uid (some eB) cB op cp (some (t1 + d)))] initState).2
      = [Emission.entryEditRelay eB sid cB op cp uid (t1 + d + 500)]
    ∧ List.lookup eA (runTrace [(t1, InEvent.editEvt sid uid (some eA) cA op cp (some t1)),
        (t1 + d, InEvent.editEvt sid uid (some eB) cB op cp (some (t1 + d)))] initState).1.lastEditMap
      = none := by
  have hstep1 : stepEvent t1 (InEvent.editEvt sid uid (some eA) cA op cp (some t1)) initState
      = ({ initState with
            debounceMap := [(sid, ⟨t1 + 500, eA, cA, op, cp, uid⟩)],
            rate := [(uid, ⟨1, t1⟩)] },
         []) := by
    simp [stepEvent, entryEditStep, checkRateLimit, initState, List.lookup, mapSet,
      windowMs, RATE_LIMIT]
  have hfire2 : fireDue (t1 + d)
      ({ initState with
          debounceMap := [(sid, ⟨t1 + 500, eA, cA, op, cp, uid⟩)],
          rate := [(uid, ⟨1, t1⟩)] } : ServerState).debounceMap.length
      { initState with
          debounceMap := [(sid, ⟨t1 + 500, eA, cA, op, cp, uid⟩)],
          rate := [(uid, ⟨1, t1⟩)] }
      = ({ initState with
            debounceMap := [(sid, ⟨t1 + 500, eA, cA, op, cp, uid⟩)],
            rate := [(uid, ⟨1, t1⟩)] },
         []) := by
    have hnotdue : ¬ (t1 + 500 ≤ t1 + d) := by omega
    have hdec := decide_eq_false hnotdue
    have hdec2 : decide ((500 : Nat) ≤ d) = false := decide_eq_false (by omega)
    simp [fireDue, earliestDue, earliestTimer, List.filter, hdec, hdec2]
  have hnr : ¬ (t1 + d - t1 > windowMs) := by
    simp [windowMs]
    omega
  have hnr2 : ¬ (windowMs < d) := by
    simp [windowMs]
    omega
  have hstep2 : stepEvent (t1 + d) (InEvent.editEvt sid uid (some eB) cB op cp (some (t1 + d)))
      { initState with
          debounceMap := [(sid, ⟨t1 + 500, eA, cA, op, cp, uid⟩)],
          rate := [(uid, ⟨1, t1⟩)] }
      = ({ initState with
            debounceMap := [(sid, ⟨t1 + d + 500, eB, cB, op, cp, uid⟩)],
            rate := [(uid, ⟨2, t1⟩)] },
         []) := by
    simp [stepEvent, entryEditStep, checkRateLimit, initState, List.lookup, mapSet,
      if_neg hnr, if_neg hnr2, RATE_LIMIT]
  have hflush : flushAll
      ({ initState with
          debounceMap := [(sid, ⟨t1 + d + 500, eB, cB, op, cp, uid⟩)],
          rate := [(uid, ⟨2, t1⟩)] } : ServerState).debounceMap.length
      { initState with
          debounceMap := [(sid, ⟨t1 + d + 500, eB, cB, op, cp, uid⟩)],
          rate := [(uid, ⟨2, t1⟩)] }
      = ({ initState with
            lastEditMap := [(eB, (uid, t1 + d + 500))],
            rate := [(uid, ⟨2, t1⟩)] },
         [Emission.entryEditRelay eB sid cB op cp uid (t1 + d + 500)]) := by
    simp [flushAll, earliestTimer, fireTimer, mapSet, mapDel, List.filter, initState]
  have hrun : runTrace [(t1, InEvent.editEvt sid uid (some eA) cA op cp (some t1)),
      (t1 + d, InEvent.editEvt sid uid (some eB) cB op cp (some (t1 + d)))] initState
      = ({ initState with
            lastEditMap := [(eB, (uid, t1 + d + 500))],
            rate := [(uid, ⟨2, t1⟩)] },
         [Emission.entryEditRelay eB sid cB op cp uid (t1 + d + 500)]) := by
    have e0 : fireDue t1 initState.debounceMap.length initState = (initState, []) :=
      fireDue_nil t1 initState.debounceMap.length initState rfl
    simp only [runTrace, runEvents, e0, hstep1, hfire2, hstep2, hflush]
    simp
  rw [hrun]
  constructor
  · rfl
  · simp [List.lookup, beq_false_of_ne hne]

/-- Witness for claim_C10: edit for entry 4 at time 1000, edit for entry 6
at 1200; only entry 6's payload is relayed (at 1700) and entry 4 has no
last-edit record. -/
theorem claim_C10_witness :
    (runTrace [(1000, InEvent.editEvt 1 2 (some 4) 11 0 0 (some 1000)),
               (1200, InEvent.editEvt 1 2 (some 6) 12 0 0 (some 1200))] initState).2
      = [Emission.entryEditRelay 6 1 12 0 0 2 1700]
    ∧ List.lookup 4 (runTrace [(1000, InEvent.editEvt 1 2 (some 4) 11 0 0 (some 1000)),
        (1200, InEvent.editEvt 1 2 (some 6) 12 0 0 (some 1200))] initState).1.lastEditMap
      = none :=
  claim_C10 1 2 4 6 11 12 0 0 1000 200 (by decide) (by decide)

/-- In mid-burst state, an event arriving before the pending timer's
deadline fires nothing. -/
theorem fireDue_mid (sid uid e op cp tPrev cPrev cnt rst t : Nat) (hlt : t < tPrev + 500) :
    fireDue t (midBurst sid uid e op cp tPrev cPrev cnt rst).debounceMap.length
        (midBurst sid uid e op cp tPrev cPrev cnt rst)
      = (midBurst sid uid e op cp tPrev cPrev cnt rst, []) := by
  have hdec : decide (tPrev + 500 ≤ t) = false := decide_eq_false (by omega)
  simp [midBurst, initState, fireDue, earliestDue, earliestTimer, List.filter, hdec]

/-- In mid-burst state with the running count at most 9, a further edit for
the same entry is admitted by the rate limiter, raises no conflict (nothing
was accepted yet), clears the pending timer and schedules a new one with the
new payload; the count stays bounded by one more than before. -/
theorem step_edit_mid (sid uid e op cp tPrev cPrev cnt rst t c : Nat) (hcnt : cnt ≤ 9) :
    ∃ cnt2 rst2, cnt2 ≤ cnt + 1 ∧
      stepEvent t (InEvent.editEvt sid uid (some e) c op cp (some t))
          (midBurst sid uid e op cp tPrev cPrev cnt rst)
        = (midBurst sid uid e op cp t c cnt2 rst2, []) := by
  by_cases hr : t - rst > windowMs
  · refine ⟨1, t, by omega, ?_⟩
    simp [stepEvent, entryEditStep, checkRateLimit, midBurst, initState, List.lookup,
      mapSet, if_pos hr, RATE_LIMIT]
  · refine ⟨cnt + 1, rst, Nat.le_refl _, ?_⟩
    have hok : decide (cnt + 1 ≤ RATE_LIMIT) = true := by
      simp [RATE_LIMIT]
      omega
    simp [stepEvent, entryEditStep, checkRateLimit, midBurst, initState, List.lookup,
      mapSet, if_neg hr, hok]

/-- Processing a chained burst from a mid-burst state leaves exactly the
mid-burst state for the LAST edit of the burst, emits nothing at all, and
keeps the rate count bounded by the number of processed events. -/
theorem runEvents_burst (sid uid e op cp : Nat) :
    ∀ (edits : List (Nat × Nat)) (tPrev cPrev cnt rst : Nat),
      chainLt 500 tPrev edits → cnt + edits.length ≤ 10 →
      ∃ cnt2 rst2,
        runEvents (burstEvents sid uid e op cp edits)
            (midBurst sid uid e op cp tPrev cPrev cnt rst)
          = (midBurst sid uid e op cp (lastD edits (tPrev, cPrev)).1
              (lastD edits (tPrev, cPrev)).2 cnt2 rst2, []) := by
  intro edits
  induction edits with
  | nil => intro tPrev cPrev cnt rst _ _; exact ⟨cnt, rst, rfl⟩
  | cons q rest ih =>
    intro tPrev cPrev cnt rst hchain hlen
    obtain ⟨t, c⟩ := q
    obtain ⟨hlt, hchain2⟩ := hchain
    have hcnt : cnt ≤ 9 := by
      simp [List.length_cons] at hlen
      omega
    obtain ⟨cnt2, rst2, hle2, hstep⟩ := step_edit_mid sid uid e op cp tPrev cPrev cnt rst t c hcnt
    have hfire := fireDue_mid sid uid e op cp tPrev cPrev cnt rst t hlt
    have hlen2 : cnt2 + rest.length ≤ 10 := by
      simp [List.length_cons] at hlen
      omega
    obtain ⟨cnt3, rst3, hrun⟩ := ih t c cnt2 rst2 hchain2 hlen2
    refine ⟨cnt3, rst3, ?_⟩
    simp only [burstEvents, List.map_cons] at hrun ⊢
    simp only [runEvents, hfire, hstep, lastD]
    simp [hrun]

/-- C8 (amended): for a burst of valid edits for one entry from one
connection, consecutive arrivals within 500 ms of each other, in which every
event is admitted by the rate limiter (guaranteed here by starting from a
fresh state with at most 10 events), the run to quiescence emits exactly one
relayed edit: it carries the payload of the LAST edit of the burst and is
stamped with the server accept time, the last arrival plus the 500 ms
debounce delay.  Bursts that overrun the rate limit lose their tail (see the
counterexample), which is the only deviation from the original claim. -/
theorem claim_C8_amended (sid uid e op cp t0 c0 : Nat) (rest : List (Nat × Nat))
    (hchain : chainLt 500 t0 rest) (hlen : rest.length + 1 ≤ 10) :
    (runTrace (burstEvents sid uid e op cp ((t0, c0) :: rest)) initState).2
      = [Emission.entryEditRelay e sid (lastD rest (t0, c0)).2 op cp uid
          ((lastD rest (t0, c0)).1 + 500)] := by
  have hstep0 : stepEvent t0 (InEvent.editEvt sid uid (some e) c0 op cp (some t0)) initState
      = (midBurst sid uid e op cp t0 c0 1 t0, []) := by
    simp [stepEvent, entryEditStep, checkRateLimit, initState, midBurst, List.lookup,
      mapSet, windowMs, RATE_LIMIT]
  obtain ⟨cnt2, rst2, hrun⟩ :=
    runEvents_burst sid uid e op cp rest t0 c0 1 t0 hchain (by omega)
  have hflush : flushAll
      (midBurst sid uid e op cp (lastD rest (t0, c0)).1 (lastD rest (t0, c0)).2
          cnt2 rst2).debounceMap.length
      (midBurst sid uid e op cp (lastD rest (t0, c0)).1 (lastD rest (t0, c0)).2 cnt2 rst2)
      = ({ initState with
            lastEditMap := [(e, (uid, (lastD rest (t0, c0)).1 + 500))],
            rate := [(uid, ⟨cnt2, rst2⟩)] },
         [Emission.entryEditRelay e sid (lastD rest (t0, c0)).2 op cp uid
            ((lastD rest (t0, c0)).1 + 500)]) := by
    simp [midBurst, initState, flushAll, earliestTimer, fireTimer, mapSet, mapDel, List.filter]
  have e0 : fireDue t0 initState.debounceMap.length initState = (initState, []) :=
    fireDue_nil t0 initState.debounceMap.length initState rfl
  simp only [burstEvents, List.map_cons] at hrun ⊢
  simp only [runTrace, runEvents, e0, hstep0, hrun, hflush]
  simp

/-- Witness for claim_C8_amended: two edits for entry 3 from socket 1 at
times 1000 (content 5) and 1200 (content 7); one relay is emitted, with
content 7 at time 1700. -/
theorem claim_C8_witness :
    (runTrace (burstEvents 1 2 3 0 0 [(1000, 5), (1200, 7)]) initState).2
      = [Emission.entryEditRelay 3 1 7 0 0 2 1700] :=
  claim_C8_amended 1 2 3 0 0 1000 5 [(1200, 7)] ⟨by decide, trivial⟩ (by decide)
